import Mathlib

/-!
Shallow embedding of `src/models/api_list.py` (the `APIList` SQLAlchemy model):
the table schema with its column defaults and constraints, the constructor
`APIList.__init__`, and the two class methods `get_by_api_key` and
`create_api_entry`.

Modelling conventions:
* A Python string is a Lean `String`; a Python `int` is a Lean `Int`;
  `None` is `Option.none`; timestamps are abstract `Int` clock readings.
* `os.getenv("FREE_TOKENS")` is an `Option String` parameter `env`
  (`none` = variable unset).  `os.getenv(name, fallback)` returns the raw
  environment string when set, the fallback otherwise; on the schema path the
  fallback is the Python `int` 50000 while the set case is a `str`, so that
  value lives in the sum type `PyScalar`.
* The SQLAlchemy session is a `Session` state: committed `rows`, `pending`
  objects added but not yet flushed, and the next store-assigned primary key
  `nextId`.  `db.add` appends to `pending`; `db.commit` flushes the pending
  objects in order, applying column defaults and checking the NOT NULL and
  UNIQUE constraints declared on the columns, and assigns primary keys;
  `db.refresh` reloads a row by primary key.  A failed commit leaves the
  committed rows unchanged (the transaction is not applied).
* `datetime.now(timezone.utc)` evaluated at module load is the parameter
  `moduleLoadTime`; the wall clock at the time of a call is the parameter
  `now`, which the code never reads because the `created_at` column default
  was evaluated once at class-definition time.
* Exceptions propagating out of the persistence layer are `Except DBError`.
-/

/-- A dynamically typed scalar as it can appear in a column default:
`os.getenv("FREE_TOKENS", 50000)` yields a `str` when the variable is set and
the `int` 50000 otherwise. -/
inductive PyScalar where
  | int : Int → PyScalar
  | str : String → PyScalar
deriving DecidableEq, Repr

/-- Errors propagated to the caller from the persistence layer or from
`int()` applied to a malformed environment value. -/
inductive DBError where
  | notNullViolation : DBError
  | uniqueViolation : DBError
  | configError : DBError
  | staleRefresh : DBError
deriving DecidableEq, Repr

/-- An `APIList` ORM object between construction and flush: fields that a
column default may still fill in are `Option`-typed, `none` meaning "not set
by the constructor". -/
structure PreRow where
  mainTableUserId : Int
  label : Option String
  apiKey : String
  instructions : Option String
  createdAt : Option Int
  totalTokens : Option Int
  tokensUsed : Option Int
  tokensRemaining : Option Int
  tokenLimitPerDay : Option Int
deriving DecidableEq, Repr

/-- A committed row of the `api_list` table.  `label` is a plain `String`
because the column is declared `nullable=False`; `total_tokens` and
`tokens_remaining` are `PyScalar` because their schema-level default
`os.getenv("FREE_TOKENS", 50000)` can be a string. -/
structure Row where
  id : Nat
  label : String
  mainTableUserId : Int
  apiKey : String
  instructions : Option String
  createdAt : Int
  lastUsedAt : Option Int
  totalTokens : PyScalar
  tokensUsed : Int
  tokensRemaining : PyScalar
  tokenLimitPerDay : Option Int
deriving DecidableEq, Repr

/-- `os.getenv("FREE_TOKENS", fallback)` with a string fallback. -/
def getenvD (env : Option String) (fallback : String) : String :=
  env.getD fallback

/-- The schema-level column default of `total_tokens` and `tokens_remaining`
(line 42/44): `os.getenv("FREE_TOKENS", 50000)` — the raw environment string
when set, the Python `int` 50000 when unset. -/
def schemaFreeTokens (env : Option String) : PyScalar :=
  match env with
  | some v => PyScalar.str v
  | none => PyScalar.int 50000

/-- Accumulate the value of a run of decimal digits; any non-digit character
makes the whole parse fail. -/
def pyDigits? : List Char → Nat → Option Nat
  | [], acc => some acc
  | c :: cs, acc =>
      if c.isDigit then pyDigits? cs (acc * 10 + (c.toNat - '0'.toNat))
      else none

/-- Python `int()` applied to a string: an optional leading minus sign
followed by at least one decimal digit, `none` for anything else (modelling
the `ValueError` raised on a malformed value; whitespace stripping and
underscore grouping of full Python `int()` are not exercised here). -/
def pyInt? (s : String) : Option Int :=
  match s.data with
  | [] => none
  | ['-'] => none
  | '-' :: c :: cs => (pyDigits? (c :: cs) 0).map (fun n => -(n : Int))
  | cs => (pyDigits? cs 0).map (fun n => (n : Int))

/-- The creation-path default (line 93): `int(os.getenv("FREE_TOKENS", "1000"))`;
`none` models `int()` raising `ValueError` on a malformed string. -/
def createFreeTokens (env : Option String) : Option Int :=
  pyInt? (getenvD env "1000")

/-- The expression `token_limit or int(os.getenv("FREE_TOKENS", "1000"))` of
line 93: Python `or` takes the default when `token_limit` is falsy, i.e. when
it is `None` or `0`; `int(...)` is only evaluated in that case. -/
def resolveTokenLimit (env : Option String) (token_limit : Option Int) :
    Except DBError Int :=
  match token_limit with
  | some t =>
      if t = 0 then
        match createFreeTokens env with
        | some d => Except.ok d
        | none => Except.error DBError.configError
      else Except.ok t
  | none =>
      match createFreeTokens env with
      | some d => Except.ok d
      | none => Except.error DBError.configError

/-- `APIList.__init__` (lines 50–55), restricted to the keyword arguments the
module itself passes: when `token_limit_per_day` is among the kwargs, both
`tokens_remaining` and `total_tokens` are overwritten with its value before
the base initializer runs. -/
def APIList.init (main_table_user_id : Int) (label : Option String)
    (api_key : String) (instructions : Option String)
    (token_limit_per_day : Option Int) : PreRow :=
  match token_limit_per_day with
  | some tl =>
      { mainTableUserId := main_table_user_id
        label := label
        apiKey := api_key
        instructions := instructions
        createdAt := none
        totalTokens := some tl
        tokensUsed := none
        tokensRemaining := some tl
        tokenLimitPerDay := some tl }
  | none =>
      { mainTableUserId := main_table_user_id
        label := label
        apiKey := api_key
        instructions := instructions
        createdAt := none
        totalTokens := none
        tokensUsed := none
        tokensRemaining := none
        tokenLimitPerDay := none }

/-- The SQLAlchemy session: committed rows, objects added but not yet
flushed, and the next store-assigned primary key. -/
structure Session where
  rows : List Row
  pending : List PreRow
  nextId : Nat
deriving DecidableEq, Repr

/-- A session as handed to the operations in scope: nothing pending and all
committed primary keys below the next one the store will assign. -/
def Session.WFState (db : Session) : Prop :=
  db.pending = [] ∧ ∀ x ∈ db.rows, x.id < db.nextId

instance (db : Session) : Decidable db.WFState := by
  unfold Session.WFState; infer_instance

/-- `db.add(api_entry)` (line 95). -/
def Session.add (db : Session) (e : PreRow) : Session :=
  { db with pending := db.pending ++ [e] }

/-- Flushing one pending object: the NOT NULL constraint on `label`
(line 36) and the UNIQUE constraint on `api_key` (line 38) are checked, the
column defaults of lines 40–44 fill the fields the constructor left unset,
and the store assigns the primary key. -/
def insertRow (env : Option String) (moduleLoadTime : Int) (rows : List Row)
    (nid : Nat) (e : PreRow) : Except DBError Row :=
  match e.label with
  | none => Except.error DBError.notNullViolation
  | some lbl =>
      if rows.any (fun r => r.apiKey = e.apiKey) then
        Except.error DBError.uniqueViolation
      else
        Except.ok
          { id := nid
            label := lbl
            mainTableUserId := e.mainTableUserId
            apiKey := e.apiKey
            instructions := e.instructions
            createdAt := e.createdAt.getD moduleLoadTime
            lastUsedAt := none
            totalTokens :=
              match e.totalTokens with
              | some i => PyScalar.int i
              | none => schemaFreeTokens env
            tokensUsed := e.tokensUsed.getD 0
            tokensRemaining :=
              match e.tokensRemaining with
              | some i => PyScalar.int i
              | none => schemaFreeTokens env
            tokenLimitPerDay := e.tokenLimitPerDay }

/-- Flushing the pending objects in order. -/
def commitLoop (env : Option String) (moduleLoadTime : Int) :
    List PreRow → List Row → Nat → Except DBError (List Row × Nat)
  | [], rows, nid => Except.ok (rows, nid)
  | e :: rest, rows, nid =>
      match insertRow env moduleLoadTime rows nid e with
      | Except.error err => Except.error err
      | Except.ok row => commitLoop env moduleLoadTime rest (rows ++ [row]) (nid + 1)

/-- `db.commit()` (line 96): flush everything pending and make it durable;
on a constraint violation the transaction is not applied and the error
propagates to the caller. -/
def Session.commit (env : Option String) (moduleLoadTime : Int)
    (db : Session) : Except DBError Session :=
  match commitLoop env moduleLoadTime db.pending db.rows db.nextId with
  | Except.error err => Except.error err
  | Except.ok (rows, nid) => Except.ok { rows := rows, pending := [], nextId := nid }

/-- `db.refresh(api_entry)` (line 97): reload the object's row from the
store by its primary key. -/
def Session.refresh (db : Session) (rowId : Nat) : Option Row :=
  db.rows.find? (fun r => r.id = rowId)

/-- `APIList.get_by_api_key` (lines 57–69):
`db.query(cls).filter(cls.api_key == api_key).first()` — the first committed
row whose `api_key` equals the argument exactly, or `None`. -/
def APIList.get_by_api_key (db : Session) (api_key : String) : Option Row :=
  db.rows.find? (fun r => r.apiKey = api_key)

/-- `APIList.create_api_entry` (lines 71–98): construct the entry with
`token_limit_per_day = token_limit or int(os.getenv("FREE_TOKENS", "1000"))`,
then `db.add`, `db.commit`, `db.refresh`, and return the refreshed entry.
`now`, the wall clock at the time of the call, is never read: the
`created_at` default was evaluated once at module load. -/
def APIList.create_api_entry (env : Option String) (moduleLoadTime now : Int)
    (db : Session) (main_table_user_id : Int) (api_key : String)
    (instructions : Option String) (label : Option String)
    (token_limit : Option Int) : Except DBError (Row × Session) :=
  match resolveTokenLimit env token_limit with
  | Except.error err => Except.error err
  | Except.ok resolved =>
      let api_entry := APIList.init main_table_user_id label api_key
        instructions (some resolved)
      let entryId := db.nextId + db.pending.length
      match Session.commit env moduleLoadTime (Session.add db api_entry) with
      | Except.error err => Except.error err
      | Except.ok db2 =>
          match Session.refresh db2 entryId with
          | some row => Except.ok (row, db2)
          | none => Except.error DBError.staleRefresh

/-- A fresh store with no rows. -/
def emptyDB : Session :=
  { rows := [], pending := [], nextId := 1 }

/-! ### Helper lemmas -/

theorem find?_append_of_none {α : Type} {p : α → Bool} {l₁ l₂ : List α}
    (h : ∀ x ∈ l₁, p x = false) :
    (l₁ ++ l₂).find? p = l₂.find? p := by
  rw [List.find?_append]
  have h0 : l₁.find? p = none :=
    List.find?_eq_none.2 (fun x hx => by simp [h x hx])
  simp [h0]

theorem commit_singleton (env : Option String) (mlt : Int) (rows : List Row)
    (nid : Nat) (e : PreRow) :
    Session.commit env mlt { rows := rows, pending := [e], nextId := nid } =
      match insertRow env mlt rows nid e with
      | Except.error err => Except.error err
      | Except.ok row =>
          Except.ok { rows := rows ++ [row], pending := [], nextId := nid + 1 } := by
  unfold Session.commit commitLoop
  cases insertRow env mlt rows nid e <;> simp [commitLoop]

theorem insertRow_init_some (env : Option String) (mlt : Int) (rows : List Row)
    (nid : Nat) (uid : Int) (l key : String) (instr : Option String) (d : Int)
    (hdup : rows.any (fun x => x.apiKey = key) = false) :
    insertRow env mlt rows nid (APIList.init uid (some l) key instr (some d)) =
      Except.ok ⟨nid, l, uid, key, instr, mlt, none, PyScalar.int d, 0,
        PyScalar.int d, some d⟩ := by
  simp [insertRow, APIList.init, hdup]

theorem create_unfold_ok (env : Option String) (mlt now : Int) (db : Session)
    (uid : Int) (key : String) (instr lbl : Option String) (tl : Option Int)
    (d : Int) (hres : resolveTokenLimit env tl = Except.ok d) :
    APIList.create_api_entry env mlt now db uid key instr lbl tl =
      (match Session.commit env mlt
          (Session.add db (APIList.init uid lbl key instr (some d))) with
       | Except.error err => Except.error err
       | Except.ok db2 =>
           match Session.refresh db2 (db.nextId + db.pending.length) with
           | some row => Except.ok (row, db2)
           | none => Except.error DBError.staleRefresh) := by
  unfold APIList.create_api_entry
  rw [hres]

theorem create_ok_spec (env : Option String) (mlt now : Int) (db : Session)
    (uid : Int) (key : String) (instr lbl : Option String) (tl : Option Int)
    (r : Row) (s' : Session) (hWF : db.WFState)
    (h : APIList.create_api_entry env mlt now db uid key instr lbl tl
          = Except.ok (r, s')) :
    ∃ d, resolveTokenLimit env tl = Except.ok d ∧
      s'.rows = db.rows ++ [r] ∧ s'.pending = [] ∧ s'.nextId = db.nextId + 1 ∧
      (∀ x ∈ db.rows, x.apiKey ≠ key) ∧
      r.id = db.nextId ∧ lbl = some r.label ∧ r.mainTableUserId = uid ∧
      r.apiKey = key ∧ r.instructions = instr ∧ r.createdAt = mlt ∧
      r.lastUsedAt = none ∧ r.tokensUsed = 0 ∧
      r.totalTokens = PyScalar.int d ∧ r.tokensRemaining = PyScalar.int d ∧
      r.tokenLimitPerDay = some d ∧ Session.refresh s' db.nextId = some r ∧
      s'.WFState := by
  obtain ⟨hp, hid⟩ := hWF
  cases hres : resolveTokenLimit env tl with
  | error e =>
      rw [APIList.create_api_entry] at h
      rw [hres] at h
      exact absurd h (by simp)
  | ok d =>
    rw [create_unfold_ok env mlt now db uid key instr lbl tl d hres] at h
    have hadd : Session.add db (APIList.init uid lbl key instr (some d))
        = { rows := db.rows, pending := [APIList.init uid lbl key instr (some d)],
            nextId := db.nextId } := by
      simp [Session.add, hp]
    rw [hadd, commit_singleton] at h
    cases lbl with
    | none =>
        simp [insertRow, APIList.init] at h
    | some l =>
      cases hdup : db.rows.any (fun x => x.apiKey = key) with
      | true =>
          simp [insertRow, APIList.init, hdup] at h
      | false =>
        rw [insertRow_init_some env mlt db.rows db.nextId uid l key instr d hdup] at h
        simp only [hp, List.length_nil, Nat.add_zero] at h
        have hkeys : ∀ x ∈ db.rows, x.apiKey ≠ key := by
          intro x hx hk
          have hany : db.rows.any (fun y => y.apiKey = key) = true :=
            List.any_eq_true.2 ⟨x, hx, by simp [hk]⟩
          rw [hdup] at hany
          exact Bool.false_ne_true hany
        have hrefresh : Session.refresh
            ⟨db.rows ++ [⟨db.nextId, l, uid, key, instr, mlt, none,
              PyScalar.int d, 0, PyScalar.int d, some d⟩], [], db.nextId + 1⟩
            db.nextId
            = some ⟨db.nextId, l, uid, key, instr, mlt, none,
              PyScalar.int d, 0, PyScalar.int d, some d⟩ := by
          unfold Session.refresh
          rw [find?_append_of_none]
          · simp [List.find?]
          · intro x hx
            have hlt := hid x hx
            simp [Nat.ne_of_lt hlt]
        rw [hrefresh] at h
        simp only [Except.ok.injEq, Prod.mk.injEq] at h
        obtain ⟨hr, hs⟩ := h
        subst hr
        subst hs
        refine ⟨d, rfl, rfl, rfl, rfl, hkeys, rfl, rfl, rfl, rfl, rfl, rfl,
          rfl, rfl, rfl, rfl, rfl, hrefresh, rfl, ?_⟩
        intro x hx
        simp only [List.mem_append, List.mem_singleton] at hx
        cases hx with
        | inl h1 => exact Nat.lt_succ_of_lt (hid x h1)
        | inr h2 => subst h2; exact Nat.lt_succ_self _

/-! ### Claim theorems -/

theorem find?_key_eq_some_of_unique {l : List Row} {k : String}
    (hU : l.Pairwise (fun a b => a.apiKey ≠ b.apiKey)) {x : Row}
    (hx : x ∈ l) (hk : x.apiKey = k) :
    l.find? (fun r => r.apiKey = k) = some x := by
  induction l with
  | nil => cases hx
  | cons a t ih =>
      rw [List.pairwise_cons] at hU
      obtain ⟨ha, ht⟩ := hU
      cases hx with
      | head => exact List.find?_cons_of_pos _ (by simp [hk])
      | tail _ hxt =>
          have hne : a.apiKey ≠ k := by
            intro h0
            exact ha x hxt (by rw [h0, hk])
          rw [List.find?_cons_of_neg _ (by simp [hne])]
          exact ih ht hxt

/-- Claim C2: a successful `create_api_entry` followed immediately by
`get_by_api_key` with the same `api_key` string returns exactly the created
record, whose owner, label and instructions equal the values passed. -/
theorem claimC2_create_then_lookup (env : Option String) (mlt now : Int)
    (db : Session) (uid : Int) (key : String) (instr lbl : Option String)
    (tl : Option Int) (r : Row) (s' : Session) (hWF : db.WFState)
    (h : APIList.create_api_entry env mlt now db uid key instr lbl tl
          = Except.ok (r, s')) :
    APIList.get_by_api_key s' key = some r ∧
    r.mainTableUserId = uid ∧ lbl = some r.label ∧ r.instructions = instr := by
  obtain ⟨d, hres, hrows, hpend, hnid, hkeys, hid, hlbl, huid, hkey, hinstr,
    hcreated, hlast, hused, htot, hrem, hper, href, hwf⟩ :=
    create_ok_spec env mlt now db uid key instr lbl tl r s' hWF h
  refine ⟨?_, huid, hlbl, hinstr⟩
  unfold APIList.get_by_api_key
  rw [hrows, find?_append_of_none]
  · simp [List.find?, hkey]
  · intro x hx
    simp [hkeys x hx]

/-- Claim C5 evaluated on the code: the spec and the method's own docstring
call `label` optional, but the `label` column is declared `nullable=False`,
so a `create_api_entry` call that omits `label` fails the NOT NULL
constraint at commit instead of succeeding with an unset label. -/
theorem claimC5_label_not_null :
    APIList.create_api_entry none 0 0 emptyDB 1 "abc123" none none none
      = Except.error DBError.notNullViolation := by
  rfl

/-- Claim C6: with `FREE_TOKENS` unset, the creation path consumes the plain
integer 1000 (a full create stores 1000 in `total_tokens`) while the
schema-default path consumes the plain integer 50000 (flushing an object
constructed without `token_limit_per_day` stores 50000). -/
theorem claimC6_two_fallbacks :
    createFreeTokens none = some 1000
    ∧ schemaFreeTokens none = PyScalar.int 50000
    ∧ Except.map (fun p => p.1.totalTokens)
        (APIList.create_api_entry none 0 0 emptyDB 1 "abc123" none (some "lbl") none)
        = Except.ok (PyScalar.int 1000)
    ∧ Except.map (fun row => row.totalTokens)
        (insertRow none 0 [] 1 (APIList.init 1 (some "lbl") "abc123" none none))
        = Except.ok (PyScalar.int 50000) := by
  exact ⟨rfl, rfl, rfl, rfl⟩

/-- Claim C10: every record produced by a successful `create_api_entry` has
`token_limit_per_day` set to some value `d` (never left null), at creation
time `total_tokens = tokens_remaining = token_limit_per_day = d`, and when
`token_limit` was omitted that stored daily cap `d` is exactly the parsed
environment free-tier default. -/
theorem claimC10_limit_always_set (env : Option String) (mlt now : Int)
    (db : Session) (uid : Int) (key : String) (instr lbl : Option String)
    (tl : Option Int) (r : Row) (s' : Session) (hWF : db.WFState)
    (h : APIList.create_api_entry env mlt now db uid key instr lbl tl
          = Except.ok (r, s')) :
    ∃ d, r.tokenLimitPerDay = some d ∧ r.totalTokens = PyScalar.int d
      ∧ r.tokensRemaining = PyScalar.int d
      ∧ (tl = none → createFreeTokens env = some d) := by
  obtain ⟨d, hres, hrows, hpend, hnid, hkeys, hid, hlbl, huid, hkey, hinstr,
    hcreated, hlast, hused, htot, hrem, hper, href, hwf⟩ :=
    create_ok_spec env mlt now db uid key instr lbl tl r s' hWF h
  refine ⟨d, hper, htot, hrem, ?_⟩
  intro htl
  subst htl
  cases hcf : createFreeTokens env with
  | none =>
      simp [resolveTokenLimit, hcf] at hres
  | some d0 =>
      simp [resolveTokenLimit, hcf] at hres
      rw [hres]

/-- Claim C8: a successful `create_api_entry` leaves the new row durably
committed (appended to the committed rows, nothing pending) before
returning, the row carries the store-assigned primary key, the returned
record is exactly what refreshing by that key reloads after the commit, and
it reflects the insert-time defaulted fields. -/
theorem claimC8_commit_then_refresh (env : Option String) (mlt now : Int)
    (db : Session) (uid : Int) (key : String) (instr lbl : Option String)
    (tl : Option Int) (r : Row) (s' : Session) (hWF : db.WFState)
    (h : APIList.create_api_entry env mlt now db uid key instr lbl tl
          = Except.ok (r, s')) :
    s'.rows = db.rows ++ [r] ∧ s'.pending = [] ∧ r.id = db.nextId ∧
    Session.refresh s' r.id = some r ∧ r.tokensUsed = 0 ∧ r.createdAt = mlt := by
  obtain ⟨d, hres, hrows, hpend, hnid, hkeys, hid, hlbl, huid, hkey, hinstr,
    hcreated, hlast, hused, htot, hrem, hper, href, hwf⟩ :=
    create_ok_spec env mlt now db uid key instr lbl tl r s' hWF h
  refine ⟨hrows, hpend, hid, ?_, hused, hcreated⟩
  rw [hid]
  exact href

/-- Claim C7: `created_at` is the module-load timestamp, not the call-time
clock — two successful creates at arbitrary call times `now1`, `now2` yield
records with equal `created_at`, both equal to the module-load time. -/
theorem claimC7_created_at_module_load (env1 env2 : Option String)
    (mlt now1 now2 : Int) (db : Session) (uid1 uid2 : Int) (k1 k2 : String)
    (i1 i2 l1 l2 : Option String) (t1 t2 : Option Int)
    (r1 r2 : Row) (s1 s2 : Session) (hWF : db.WFState)
    (h1 : APIList.create_api_entry env1 mlt now1 db uid1 k1 i1 l1 t1
          = Except.ok (r1, s1))
    (h2 : APIList.create_api_entry env2 mlt now2 s1 uid2 k2 i2 l2 t2
          = Except.ok (r2, s2)) :
    r1.createdAt = r2.createdAt ∧ r1.createdAt = mlt := by
  obtain ⟨d1, hres1, hrows1, hpend1, hnid1, hkeys1, hid1, hlbl1, huid1, hkey1,
    hinstr1, hcreated1, hlast1, hused1, htot1, hrem1, hper1, href1, hwf1⟩ :=
    create_ok_spec env1 mlt now1 db uid1 k1 i1 l1 t1 r1 s1 hWF h1
  obtain ⟨d2, hres2, hrows2, hpend2, hnid2, hkeys2, hid2, hlbl2, huid2, hkey2,
    hinstr2, hcreated2, hlast2, hused2, htot2, hrem2, hper2, href2, hwf2⟩ :=
    create_ok_spec env2 mlt now2 s1 uid2 k2 i2 l2 t2 r2 s2 hwf1 h2
  constructor
  · rw [hcreated1, hcreated2]
  · exact hcreated1

/-- Claim C1, counterexample: with `FREE_TOKENS` unset, a create call that
supplies `token_limit = 0` stores 1000 — the environment fallback — in
`total_tokens`, not the supplied value 0, so the limit actually resolved is
not "the supplied `token_limit` if given". -/
theorem claimC1_counterexample :
    Except.map (fun p => p.1.totalTokens)
      (APIList.create_api_entry none 0 0 emptyDB 1 "abc123" none (some "lbl")
        (some 0))
      = Except.ok (PyScalar.int 1000)
    ∧ PyScalar.int 1000 ≠ PyScalar.int 0 := by
  exact ⟨rfl, by decide⟩

/-- The limit the amended claim C1 predicts, stated from the claim's words,
not from the code: the supplied `token_limit` when given and nonzero,
otherwise the free-tier default `d`. -/
def specResolvedLimit (d : Int) (token_limit : Option Int) : Int :=
  match token_limit with
  | some t => if t = 0 then d else t
  | none => d

/-- Claim C1 (amended): for every successful `create_api_entry` call, with
`d` the parsed environment free-tier default, the resolved limit — the
supplied `token_limit` when given and nonzero, otherwise `d` — is written to
both `total_tokens` and `tokens_remaining`, and `tokens_used` is 0. -/
theorem claimC1_resolved_limit (env : Option String) (mlt now : Int)
    (db : Session) (uid : Int) (key : String) (instr lbl : Option String)
    (tl : Option Int) (d : Int) (r : Row) (s' : Session) (hWF : db.WFState)
    (hd : createFreeTokens env = some d)
    (h : APIList.create_api_entry env mlt now db uid key instr lbl tl
          = Except.ok (r, s')) :
    r.totalTokens = PyScalar.int (specResolvedLimit d tl)
    ∧ r.tokensRemaining = PyScalar.int (specResolvedLimit d tl)
    ∧ r.tokensUsed = 0 := by
  obtain ⟨d', hres, hrows, hpend, hnid, hkeys, hid, hlbl, huid, hkey, hinstr,
    hcreated, hlast, hused, htot, hrem, hper, href, hwf⟩ :=
    create_ok_spec env mlt now db uid key instr lbl tl r s' hWF h
  have hd' : d' = specResolvedLimit d tl := by
    cases tl with
    | none =>
        simp [resolveTokenLimit, hd] at hres
        simp [specResolvedLimit]
        omega
    | some t =>
        by_cases ht : t = 0
        · subst ht
          simp [resolveTokenLimit, hd] at hres
          simp [specResolvedLimit]
          omega
        · simp [resolveTokenLimit, ht] at hres
          simp [specResolvedLimit, ht]
          omega
  rw [htot, hrem, hused, hd']
  exact ⟨rfl, rfl, rfl⟩

/-- Claim C9: passing `token_limit = 0` to `create_api_entry` is treated the
same as omitting it — the call is equal to the call with `token_limit`
omitted, and the created record has `token_limit_per_day`, `total_tokens`
and `tokens_remaining` all set to the parsed environment free-tier default. -/
theorem claimC9_zero_is_default (env : Option String) (mlt now : Int)
    (db : Session) (uid : Int) (key : String) (instr lbl : Option String)
    (d : Int) (r : Row) (s' : Session) (hWF : db.WFState)
    (hd : createFreeTokens env = some d)
    (h : APIList.create_api_entry env mlt now db uid key instr lbl (some 0)
          = Except.ok (r, s')) :
    APIList.create_api_entry env mlt now db uid key instr lbl (some 0)
      = APIList.create_api_entry env mlt now db uid key instr lbl none
    ∧ r.tokenLimitPerDay = some d ∧ r.totalTokens = PyScalar.int d
    ∧ r.tokensRemaining = PyScalar.int d := by
  obtain ⟨d', hres, hrows, hpend, hnid, hkeys, hid, hlbl, huid, hkey, hinstr,
    hcreated, hlast, hused, htot, hrem, hper, href, hwf⟩ :=
    create_ok_spec env mlt now db uid key instr lbl (some 0) r s' hWF h
  have hresolve : resolveTokenLimit env (some 0) = resolveTokenLimit env none := by
    simp [resolveTokenLimit]
  have hd' : d' = d := by
    simp [resolveTokenLimit, hd] at hres
    omega
  subst hd'
  refine ⟨?_, hper, htot, hrem⟩
  unfold APIList.create_api_entry
  rw [hresolve]

/-- Claim C3: `api_key` is unique across records — after a successful create
with a given key, a second otherwise-valid `create_api_entry` call with the
same `api_key` fails with the uniqueness violation, and the store coming out
of the successful create still has pairwise distinct `api_key` values. -/
theorem claimC3_unique_api_key (env1 env2 : Option String)
    (mlt1 now1 mlt2 now2 : Int) (db : Session) (uid1 uid2 : Int) (key : String)
    (instr1 instr2 lbl1 : Option String) (l2 : String) (tl1 tl2 : Option Int)
    (v : Int) (r : Row) (s' : Session)
    (hWF : db.WFState)
    (hU : db.rows.Pairwise (fun a b => a.apiKey ≠ b.apiKey))
    (h : APIList.create_api_entry env1 mlt1 now1 db uid1 key instr1 lbl1 tl1
          = Except.ok (r, s'))
    (hres2 : resolveTokenLimit env2 tl2 = Except.ok v) :
    APIList.create_api_entry env2 mlt2 now2 s' uid2 key instr2 (some l2) tl2
      = Except.error DBError.uniqueViolation
    ∧ s'.rows.Pairwise (fun a b => a.apiKey ≠ b.apiKey) := by
  obtain ⟨d, hres, hrows, hpend, hnid, hkeys, hid, hlbl, huid, hkey, hinstr,
    hcreated, hlast, hused, htot, hrem, hper, href, hwf⟩ :=
    create_ok_spec env1 mlt1 now1 db uid1 key instr1 lbl1 tl1 r s' hWF h
  constructor
  · rw [create_unfold_ok env2 mlt2 now2 s' uid2 key instr2 (some l2) tl2 v hres2]
    have hadd : Session.add s' (APIList.init uid2 (some l2) key instr2 (some v))
        = { rows := s'.rows,
            pending := [APIList.init uid2 (some l2) key instr2 (some v)],
            nextId := s'.nextId } := by
      simp [Session.add, hpend]
    rw [hadd, commit_singleton]
    have hdup : s'.rows.any (fun x => x.apiKey = key) = true := by
      refine List.any_eq_true.2 ⟨r, ?_, by simp [hkey]⟩
      rw [hrows]
      simp
    simp [insertRow, APIList.init, hdup]
  · rw [hrows, List.pairwise_append]
    refine ⟨hU, by simp, ?_⟩
    intro a ha b hb
    simp only [List.mem_singleton] at hb
    subst hb
    rw [hkey]
    exact hkeys a ha

/-- Claim C4: `get_by_api_key` performs an exact, case-sensitive match on the
committed store — it returns `none` exactly when no row's `api_key` equals
the input string, and returns the (unique) matching row whenever one exists;
being a total function of the session it raises nothing and has no side
effect on the store. -/
theorem claimC4_lookup_exact (db : Session) (k : String)
    (hU : db.rows.Pairwise (fun a b => a.apiKey ≠ b.apiKey)) :
    (APIList.get_by_api_key db k = none ↔ ∀ x ∈ db.rows, x.apiKey ≠ k)
    ∧ ∀ x ∈ db.rows, x.apiKey = k → APIList.get_by_api_key db k = some x := by
  constructor
  · unfold APIList.get_by_api_key
    rw [List.find?_eq_none]
    constructor
    · intro h x hx
      simpa using h x hx
    · intro h x hx
      simpa using h x hx
  · intro x hx hk
    exact find?_key_eq_some_of_unique hU hx hk

/-! ### Witnesses -/

/-- Witness for claim C1 (amended), at a concrete call with no token_limit. -/
theorem claimC1_witness :
    emptyDB.WFState ∧ createFreeTokens none = some 1000 ∧
    ((⟨1, "lbl", 1, "abc123", none, 0, none, PyScalar.int 1000, 0,
        PyScalar.int 1000, some 1000⟩ : Row).totalTokens
        = PyScalar.int (specResolvedLimit 1000 none)
      ∧ (⟨1, "lbl", 1, "abc123", none, 0, none, PyScalar.int 1000, 0,
          PyScalar.int 1000, some 1000⟩ : Row).tokensRemaining
          = PyScalar.int (specResolvedLimit 1000 none)
      ∧ (⟨1, "lbl", 1, "abc123", none, 0, none, PyScalar.int 1000, 0,
          PyScalar.int 1000, some 1000⟩ : Row).tokensUsed = 0) :=
  ⟨by decide, by decide,
    claimC1_resolved_limit none 0 0 emptyDB 1 "abc123" none (some "lbl") none
      1000
      ⟨1, "lbl", 1, "abc123", none, 0, none, PyScalar.int 1000, 0,
        PyScalar.int 1000, some 1000⟩
      ⟨[⟨1, "lbl", 1, "abc123", none, 0, none, PyScalar.int 1000, 0,
        PyScalar.int 1000, some 1000⟩], [], 2⟩
      (by decide) (by decide) rfl⟩

/-- Witness for claim C2, at a concrete create-then-lookup on a fresh store. -/
theorem claimC2_witness :
    emptyDB.WFState ∧
    (APIList.get_by_api_key
        ⟨[⟨1, "a", 1, "k1", some "ins", 0, none, PyScalar.int 7, 0,
          PyScalar.int 7, some 7⟩], [], 2⟩ "k1"
        = some ⟨1, "a", 1, "k1", some "ins", 0, none, PyScalar.int 7, 0,
            PyScalar.int 7, some 7⟩
      ∧ (⟨1, "a", 1, "k1", some "ins", 0, none, PyScalar.int 7, 0,
          PyScalar.int 7, some 7⟩ : Row).mainTableUserId = 1
      ∧ (some "a" : Option String)
          = some (⟨1, "a", 1, "k1", some "ins", 0, none, PyScalar.int 7, 0,
              PyScalar.int 7, some 7⟩ : Row).label
      ∧ (⟨1, "a", 1, "k1", some "ins", 0, none, PyScalar.int 7, 0,
          PyScalar.int 7, some 7⟩ : Row).instructions = some "ins") :=
  ⟨by decide,
    claimC2_create_then_lookup none 0 0 emptyDB 1 "k1" (some "ins") (some "a")
      (some 7)
      ⟨1, "a", 1, "k1", some "ins", 0, none, PyScalar.int 7, 0,
        PyScalar.int 7, some 7⟩
      ⟨[⟨1, "a", 1, "k1", some "ins", 0, none, PyScalar.int 7, 0,
        PyScalar.int 7, some 7⟩], [], 2⟩
      (by decide) rfl⟩

/-- Witness for claim C3: a concrete duplicate-key second create fails. -/
theorem claimC3_witness :
    emptyDB.WFState ∧
    ([] : List Row).Pairwise (fun a b => a.apiKey ≠ b.apiKey) ∧
    resolveTokenLimit none (some 7) = Except.ok 7 ∧
    (APIList.create_api_entry none 0 0
        ⟨[⟨1, "a", 1, "k1", none, 0, none, PyScalar.int 7, 0,
          PyScalar.int 7, some 7⟩], [], 2⟩ 2 "k1" none (some "b") (some 7)
        = Except.error DBError.uniqueViolation
      ∧ ([⟨1, "a", 1, "k1", none, 0, none, PyScalar.int 7, 0,
          PyScalar.int 7, some 7⟩] : List Row).Pairwise
          (fun a b => a.apiKey ≠ b.apiKey)) := by
  refine ⟨by decide, List.Pairwise.nil, rfl, ?_⟩
  exact claimC3_unique_api_key none none 0 0 0 0 emptyDB 1 2 "k1" none none
    (some "a") "b" (some 7) (some 7) 7
    ⟨1, "a", 1, "k1", none, 0, none, PyScalar.int 7, 0, PyScalar.int 7, some 7⟩
    ⟨[⟨1, "a", 1, "k1", none, 0, none, PyScalar.int 7, 0, PyScalar.int 7,
      some 7⟩], [], 2⟩
    (by decide) List.Pairwise.nil rfl rfl

/-- Witness for claim C4, on a concrete one-row store. -/
theorem claimC4_witness :
    ([⟨1, "a", 1, "k", none, 0, none, PyScalar.int 7, 0, PyScalar.int 7,
      some 7⟩] : List Row).Pairwise (fun a b => a.apiKey ≠ b.apiKey) ∧
    ((APIList.get_by_api_key
        ⟨[⟨1, "a", 1, "k", none, 0, none, PyScalar.int 7, 0, PyScalar.int 7,
          some 7⟩], [], 2⟩ "k" = none
        ↔ ∀ x ∈ (⟨[⟨1, "a", 1, "k", none, 0, none, PyScalar.int 7, 0,
            PyScalar.int 7, some 7⟩], [], 2⟩ : Session).rows, x.apiKey ≠ "k")
      ∧ ∀ x ∈ (⟨[⟨1, "a", 1, "k", none, 0, none, PyScalar.int 7, 0,
          PyScalar.int 7, some 7⟩], [], 2⟩ : Session).rows, x.apiKey = "k" →
          APIList.get_by_api_key
            ⟨[⟨1, "a", 1, "k", none, 0, none, PyScalar.int 7, 0,
              PyScalar.int 7, some 7⟩], [], 2⟩ "k" = some x) := by
  have hU : ([⟨1, "a", 1, "k", none, 0, none, PyScalar.int 7, 0,
      PyScalar.int 7, some 7⟩] : List Row).Pairwise
      (fun a b => a.apiKey ≠ b.apiKey) := by simp
  exact ⟨hU, claimC4_lookup_exact
    ⟨[⟨1, "a", 1, "k", none, 0, none, PyScalar.int 7, 0, PyScalar.int 7,
      some 7⟩], [], 2⟩ "k" hU⟩

/-- Witness for claim C7: two creates at call times 5 and 9 share created_at 0. -/
theorem claimC7_witness :
    emptyDB.WFState ∧
    ((⟨1, "a", 1, "k1", none, 0, none, PyScalar.int 7, 0, PyScalar.int 7,
        some 7⟩ : Row).createdAt
      = (⟨2, "b", 2, "k2", none, 0, none, PyScalar.int 7, 0, PyScalar.int 7,
        some 7⟩ : Row).createdAt
      ∧ (⟨1, "a", 1, "k1", none, 0, none, PyScalar.int 7, 0, PyScalar.int 7,
        some 7⟩ : Row).createdAt = 0) :=
  ⟨by decide,
    claimC7_created_at_module_load none none 0 5 9 emptyDB 1 2 "k1" "k2"
      none none (some "a") (some "b") (some 7) (some 7)
      ⟨1, "a", 1, "k1", none, 0, none, PyScalar.int 7, 0, PyScalar.int 7,
        some 7⟩
      ⟨2, "b", 2, "k2", none, 0, none, PyScalar.int 7, 0, PyScalar.int 7,
        some 7⟩
      ⟨[⟨1, "a", 1, "k1", none, 0, none, PyScalar.int 7, 0, PyScalar.int 7,
        some 7⟩], [], 2⟩
      ⟨[⟨1, "a", 1, "k1", none, 0, none, PyScalar.int 7, 0, PyScalar.int 7,
          some 7⟩,
        ⟨2, "b", 2, "k2", none, 0, none, PyScalar.int 7, 0, PyScalar.int 7,
          some 7⟩], [], 3⟩
      (by decide) rfl rfl⟩

/-- Witness for claim C8, at a concrete create with module-load time 3. -/
theorem claimC8_witness :
    emptyDB.WFState ∧
    ((⟨[⟨1, "a", 1, "k8", none, 3, none, PyScalar.int 7, 0, PyScalar.int 7,
        some 7⟩], [], 2⟩ : Session).rows
        = emptyDB.rows ++ [⟨1, "a", 1, "k8", none, 3, none, PyScalar.int 7, 0,
            PyScalar.int 7, some 7⟩]
      ∧ (⟨[⟨1, "a", 1, "k8", none, 3, none, PyScalar.int 7, 0, PyScalar.int 7,
          some 7⟩], [], 2⟩ : Session).pending = []
      ∧ (⟨1, "a", 1, "k8", none, 3, none, PyScalar.int 7, 0, PyScalar.int 7,
          some 7⟩ : Row).id = emptyDB.nextId
      ∧ Session.refresh
          ⟨[⟨1, "a", 1, "k8", none, 3, none, PyScalar.int 7, 0, PyScalar.int 7,
            some 7⟩], [], 2⟩
          (⟨1, "a", 1, "k8", none, 3, none, PyScalar.int 7, 0, PyScalar.int 7,
            some 7⟩ : Row).id
          = some ⟨1, "a", 1, "k8", none, 3, none, PyScalar.int 7, 0,
              PyScalar.int 7, some 7⟩
      ∧ (⟨1, "a", 1, "k8", none, 3, none, PyScalar.int 7, 0, PyScalar.int 7,
          some 7⟩ : Row).tokensUsed = 0
      ∧ (⟨1, "a", 1, "k8", none, 3, none, PyScalar.int 7, 0, PyScalar.int 7,
          some 7⟩ : Row).createdAt = 3) :=
  ⟨by decide,
    claimC8_commit_then_refresh none 3 0 emptyDB 1 "k8" none (some "a")
      (some 7)
      ⟨1, "a", 1, "k8", none, 3, none, PyScalar.int 7, 0, PyScalar.int 7,
        some 7⟩
      ⟨[⟨1, "a", 1, "k8", none, 3, none, PyScalar.int 7, 0, PyScalar.int 7,
        some 7⟩], [], 2⟩
      (by decide) rfl⟩

/-- Witness for claim C9, at a concrete create with token_limit = 0. -/
theorem claimC9_witness :
    emptyDB.WFState ∧ createFreeTokens none = some 1000 ∧
    (APIList.create_api_entry none 0 0 emptyDB 1 "k9" none (some "a") (some 0)
        = APIList.create_api_entry none 0 0 emptyDB 1 "k9" none (some "a") none
      ∧ (⟨1, "a", 1, "k9", none, 0, none, PyScalar.int 1000, 0,
          PyScalar.int 1000, some 1000⟩ : Row).tokenLimitPerDay = some 1000
      ∧ (⟨1, "a", 1, "k9", none, 0, none, PyScalar.int 1000, 0,
          PyScalar.int 1000, some 1000⟩ : Row).totalTokens = PyScalar.int 1000
      ∧ (⟨1, "a", 1, "k9", none, 0, none, PyScalar.int 1000, 0,
          PyScalar.int 1000, some 1000⟩ : Row).tokensRemaining
          = PyScalar.int 1000) :=
  ⟨by decide, by decide,
    claimC9_zero_is_default none 0 0 emptyDB 1 "k9" none (some "a") 1000
      ⟨1, "a", 1, "k9", none, 0, none, PyScalar.int 1000, 0,
        PyScalar.int 1000, some 1000⟩
      ⟨[⟨1, "a", 1, "k9", none, 0, none, PyScalar.int 1000, 0,
        PyScalar.int 1000, some 1000⟩], [], 2⟩
      (by decide) (by decide) rfl⟩

/-- Witness for claim C10, at a concrete create that omits token_limit with
the environment variable unset, so the stored daily cap is the default 1000. -/
theorem claimC10_witness :
    emptyDB.WFState ∧
    (∃ d, (⟨1, "a", 1, "kA", none, 0, none, PyScalar.int 1000, 0,
        PyScalar.int 1000, some 1000⟩ : Row).tokenLimitPerDay = some d
      ∧ (⟨1, "a", 1, "kA", none, 0, none, PyScalar.int 1000, 0,
          PyScalar.int 1000, some 1000⟩ : Row).totalTokens = PyScalar.int d
      ∧ (⟨1, "a", 1, "kA", none, 0, none, PyScalar.int 1000, 0,
          PyScalar.int 1000, some 1000⟩ : Row).tokensRemaining = PyScalar.int d
      ∧ ((none : Option Int) = none → createFreeTokens none = some d)) :=
  ⟨by decide,
    claimC10_limit_always_set none 0 0 emptyDB 1 "kA" none (some "a") none
      ⟨1, "a", 1, "kA", none, 0, none, PyScalar.int 1000, 0, PyScalar.int 1000,
        some 1000⟩
      ⟨[⟨1, "a", 1, "kA", none, 0, none, PyScalar.int 1000, 0,
        PyScalar.int 1000, some 1000⟩], [], 2⟩
      (by decide) rfl⟩
